import Mathlib

/-!
# fiber_log: typed errors raised by the product and order services

A shallow embedding of `services/product_service.go`, `services/order_service.go`
and of the call-chain demo functions of `main.go`.

* Go `int` is an `Int` wrapped to 64 bits where arithmetic can overflow.
* Go `float64` is `F64`: NaN, the two infinities, negative zero, and the finite
  values `m * 2 ^ e`.  Only comparisons are evaluated exactly; the rounding
  arithmetic used by `CalculateDiscount` is taken as a parameter (`F64Ops`).
* `map[string]*Product` is a finite map given as a lookup function; a method with a
  pointer receiver takes the service state and returns the state it leaves behind.
* A Go `error` result is `Option ErrorRecord` (`none` is `nil`); a `(T, error)`
  result is `Except ErrorRecord T`.
* Every function takes `stk`, the frames of its callers, innermost first, so that the
  location captured by an error factory can be computed.  A frame records the line
  of the call expression (the line of its opening parenthesis).
* The `goerrorkit` library is not part of the sources; its factories, `WithData`,
  `WithCallChain` and the stack locator are modelled from the specification.  A
  record keeps the stack walk captured by its factory; the location and the call
  chain both derive from that walk.
-/

namespace FiberLog

/-! ## Go machine values -/

/-- Two's-complement wrap of an integer to the 64-bit range of Go `int`. -/
def wrapInt (x : Int) : Int := (x + 2 ^ 63) % 2 ^ 64 - 2 ^ 63

/-- Values of Go `float64`; `fin m e` is the number `m * 2 ^ e`. -/
inductive F64 where
  | nan : F64
  | posInf : F64
  | negInf : F64
  | negZero : F64
  | fin (m : Int) (e : Int) : F64
  deriving DecidableEq, Repr

namespace F64

/-- The float64 value of a small integer literal. -/
def ofInt (n : Int) : F64 := .fin n 0

/-- Comparison `m1 * 2^e1 < m2 * 2^e2` of two finite values. -/
def finLt (m1 e1 m2 e2 : Int) : Bool :=
  let e := min e1 e2
  decide (m1 * 2 ^ (e1 - e).toNat < m2 * 2 ^ (e2 - e).toNat)

/-- Go `a < b` on float64: false whenever an operand is NaN. -/
def lt : F64 → F64 → Bool
  | .nan, _ => false
  | _, .nan => false
  | .posInf, _ => false
  | _, .posInf => true
  | _, .negInf => false
  | .negInf, _ => true
  | .negZero, .negZero => false
  | .negZero, .fin m e => finLt 0 0 m e
  | .fin m e, .negZero => finLt m e 0 0
  | .fin m1 e1, .fin m2 e2 => finLt m1 e1 m2 e2

/-- Go `a > b` on float64. -/
def gt (a b : F64) : Bool := lt b a

/-- Go `a <= b` on float64: false whenever an operand is NaN. -/
def le : F64 → F64 → Bool
  | .nan, _ => false
  | _, .nan => false
  | a, b => !(lt b a)

end F64

/-- The float64 operations of `CalculateDiscount`, which round; taken as parameters. -/
structure F64Ops where
  mul : F64 → F64 → F64
  sub : F64 → F64 → F64
  div : F64 → F64 → F64

/-! ## goerrorkit, modelled from the specification -/

/-- Modelled from the spec: the `kind` enumeration of an ErrorRecord (goerrorkit is
not among the sources). -/
inductive ErrorKind where
  | Business | Validation | Auth | External | System | Panic
  deriving DecidableEq, Repr

/-- Modelled from the spec: one entry of a call stack, identified by package,
function and line. -/
structure Frame where
  pkg : String
  fn : String
  line : Nat
  deriving DecidableEq, Repr

/-- Values stored in the `map[string]interface{}` payloads built by the sources:
strings, ints, float64s and bools. -/
inductive Value where
  | str (s : String)
  | int (n : Int)
  | float (x : F64)
  | bool (b : Bool)
  deriving DecidableEq, Repr

/-- A `map[string]interface{}` literal, as its key/value pairs. -/
abbrev Data := List (String × Value)

/-- Modelled from the spec: the ErrorRecord of goerrorkit (kind, status, message,
data, optional cause, captured location, optional call chain).  `walk` is the call
stack captured by the factory at construction, innermost first: the single walk from
which both the location and the call chain derive (section 4.1).  The creation
timestamp is left out. -/
structure ErrorRecord where
  kind : ErrorKind
  httpStatus : Int
  message : String
  data : Data
  cause : Option String
  walk : List Frame
  location : Frame
  callChain : Option (List Frame)
  deriving DecidableEq, Repr

/-- Modelled from the spec: the process-wide FilterConfiguration consulted by the
stack locator. -/
structure FilterConfiguration where
  skipPatterns : List String
  skipPackages : List String
  skipFunctions : List String
  includePackages : List String
  showFullPath : Bool
  deriving DecidableEq, Repr

/-- Modelled from the spec: the default FilterConfiguration is empty (no filtering). -/
def FilterConfiguration.empty : FilterConfiguration :=
  { skipPatterns := [], skipPackages := [], skipFunctions := [],
    includePackages := [], showFullPath := false }

/-- Plain substring test. -/
def containsSubstr (s pat : String) : Bool :=
  s.toList.tails.any (fun t => pat.toList.isPrefixOf t)

/-- Plain leading-substring test. -/
def startsWith (s pat : String) : Bool := pat.toList.isPrefixOf s.toList

/-- The formatted `package.Function` text of a frame, matched by skip-patterns. -/
def frameText (f : Frame) : String := f.pkg ++ "." ++ f.fn

/-- Modelled from the spec: a frame is noise if it matches any skip-pattern, any
skip-package, any skip-function, or, when the include-list is non-empty, if it
matches none of its entries (section 4.2 of the specification). -/
def isNoise (cfg : FilterConfiguration) (f : Frame) : Bool :=
  cfg.skipPatterns.any (fun p => containsSubstr (frameText f) p)
  || cfg.skipPackages.any (fun p => startsWith f.pkg p)
  || cfg.skipFunctions.any (fun p => containsSubstr f.fn p)
  || (!cfg.includePackages.isEmpty && !cfg.includePackages.any (fun p => startsWith f.pkg p))

/-- Frame reported when the walked stack is empty; a live stack always has a frame. -/
def unknownFrame : Frame := { pkg := "", fn := "", line := 0 }

/-- Modelled from the spec: single-location resolution of the stack locator: the
first non-noise frame, falling back to the innermost raw frame when every frame is
noise. -/
def resolveLocation (cfg : FilterConfiguration) (stk : List Frame) : Frame :=
  match stk.find? (fun f => !isNoise cfg f) with
  | some f => f
  | none => stk.headD unknownFrame

/-- Modelled from the spec: the default depth cap of a call chain. -/
def maxCallChainDepth : Nat := 50

/-- Modelled from the spec: full-chain resolution of the stack locator: the non-noise
frames, innermost first, until the depth cap or the stack root is reached.  When
every frame is noise the chain holds the innermost raw frame alone, the same
fallback as the single location, whose value the first entry of the chain must
equal (sections 4.1, 4.2 and 8). -/
def resolveCallChain (cfg : FilterConfiguration) (stk : List Frame) : List Frame :=
  match stk.filter (fun f => !isNoise cfg f) with
  | [] => [stk.headD unknownFrame]
  | f :: fs => (f :: fs).take maxCallChainDepth

/-- Modelled from the spec: `NewBusinessError(status, message)`; `stk` is the live
stack at the call site. -/
def NewBusinessError (cfg : FilterConfiguration) (stk : List Frame) (status : Int)
    (message : String) : ErrorRecord :=
  { kind := .Business, httpStatus := status, message := message, data := [],
    cause := none, walk := stk, location := resolveLocation cfg stk, callChain := none }

/-- Modelled from the spec: `NewValidationError(message, data)`; status defaults
to 400. -/
def NewValidationError (cfg : FilterConfiguration) (stk : List Frame) (message : String)
    (data : Data) : ErrorRecord :=
  { kind := .Validation, httpStatus := 400, message := message, data := data,
    cause := none, walk := stk, location := resolveLocation cfg stk, callChain := none }

/-- Modelled from the spec: `NewExternalError(status, message, cause)`. -/
def NewExternalError (cfg : FilterConfiguration) (stk : List Frame) (status : Int)
    (message : String) (cause : String) : ErrorRecord :=
  { kind := .External, httpStatus := status, message := message, data := [],
    cause := some cause, walk := stk, location := resolveLocation cfg stk,
    callChain := none }

/-- Modelled from the spec: `NewSystemError(cause)`; status defaults to 500 and the
message is the text of the cause. -/
def NewSystemError (cfg : FilterConfiguration) (stk : List Frame) (cause : String) :
    ErrorRecord :=
  { kind := .System, httpStatus := 500, message := cause, data := [],
    cause := some cause, walk := stk, location := resolveLocation cfg stk,
    callChain := none }

/-- Modelled from the spec: `NewAuthError(status, message)`. -/
def NewAuthError (cfg : FilterConfiguration) (stk : List Frame) (status : Int)
    (message : String) : ErrorRecord :=
  { kind := .Auth, httpStatus := status, message := message, data := [],
    cause := none, walk := stk, location := resolveLocation cfg stk, callChain := none }

/-- Modelled from the spec: data merge of `WithData`: the new mapping on top of the
existing data, overlapping keys taking the new value. -/
def mergeData (old new : Data) : Data :=
  new ++ old.filter (fun kv => !new.any (fun kv2 => kv2.1 == kv.1))

/-- Modelled from the spec: `WithData(mapping)` returns a new record with the data
merged. -/
def ErrorRecord.WithData (e : ErrorRecord) (m : Data) : ErrorRecord :=
  { e with data := mergeData e.data m }

/-- Modelled from the spec: `WithCallChain()` returns a new record whose call chain is
the full filtered stack walk from the captured call site outward, capped at the depth
cap.  The chain derives from the walk the location was resolved on (section 4.1); the
location is not recomputed. -/
def ErrorRecord.WithCallChain (e : ErrorRecord) (cfg : FilterConfiguration) : ErrorRecord :=
  { e with callChain := some (resolveCallChain cfg e.walk) }

/-- Modelled from the spec: the records obtainable from goerrorkit: built by a factory
on a live stack, whose innermost frame `site` is the call site, and augmented by
`WithData` and `WithCallChain`. -/
inductive Constructed (cfg : FilterConfiguration) : ErrorRecord → Prop where
  | business (site : Frame) (stk : List Frame) (status : Int) (message : String) :
      Constructed cfg (NewBusinessError cfg (site :: stk) status message)
  | system (site : Frame) (stk : List Frame) (cause : String) :
      Constructed cfg (NewSystemError cfg (site :: stk) cause)
  | validation (site : Frame) (stk : List Frame) (message : String) (data : Data) :
      Constructed cfg (NewValidationError cfg (site :: stk) message data)
  | auth (site : Frame) (stk : List Frame) (status : Int) (message : String) :
      Constructed cfg (NewAuthError cfg (site :: stk) status message)
  | external (site : Frame) (stk : List Frame) (status : Int) (message cause : String) :
      Constructed cfg (NewExternalError cfg (site :: stk) status message cause)
  | withData (e : ErrorRecord) (m : Data) :
      Constructed cfg e → Constructed cfg (e.WithData m)
  | withCallChain (e : ErrorRecord) :
      Constructed cfg e → Constructed cfg (e.WithCallChain cfg)

/-! ## services/product_service.go -/

/-- The `Product` struct. -/
structure Product where
  ID : String
  Name : String
  Stock : Int
  Price : F64
  deriving DecidableEq, Repr

/-- The `ProductService` struct: the in-memory `products` map. -/
structure ProductService where
  products : String → Option Product

/-- `NewProductService`: the three-product catalog.  Prices are the float64 values
nearest to 999.99, 2499.99 and 249.99. -/
def NewProductService : ProductService :=
  { products := fun k =>
      if k = "123" then
        some { ID := "123", Name := "iPhone 15", Stock := 0, Price := .fin 4398002530638889 (-42) }
      else if k = "456" then
        some { ID := "456", Name := "MacBook Pro", Stock := 5, Price := .fin 1374384037161861 (-39) }
      else if k = "789" then
        some { ID := "789", Name := "AirPods Pro", Stock := 10, Price := .fin 1099467647310889 (-42) }
      else none }

/-- Assignment to `Stock` through the `*Product` stored under key `productID`; distinct
keys hold distinct pointers, as in the catalog built by `NewProductService`. -/
def ProductService.setStock (s : ProductService) (productID : String) (stock : Int) :
    ProductService :=
  { products := fun k =>
      if k = productID then (s.products k).map (fun p => { p with Stock := stock })
      else s.products k }

/-- `ProductService.GetProduct` (product_service.go, lines 36-45). -/
def GetProduct (cfg : FilterConfiguration) (stk : List Frame) (s : ProductService)
    (productID : String) : Except ErrorRecord Product × ProductService :=
  match s.products productID with
  | none =>
    (.error ((NewBusinessError cfg (⟨"fiber_log/services", "(*ProductService).GetProduct", 40⟩ :: stk) 404
        ("Sản phẩm ID=" ++ productID ++ " không tồn tại")).WithData
        [("product_id", .str productID)]), s)
  | some product => (.ok product, s)

/-- `ProductService.CheckStock` (product_service.go, lines 49-64). -/
def CheckStock (cfg : FilterConfiguration) (stk : List Frame) (s : ProductService)
    (productID : String) : Option ErrorRecord × ProductService :=
  match GetProduct cfg (⟨"fiber_log/services", "(*ProductService).CheckStock", 50⟩ :: stk) s productID with
  | (.error err, s1) => (some err, s1)
  | (.ok product, s1) =>
    if product.Stock = 0 then
      (some ((NewBusinessError cfg (⟨"fiber_log/services", "(*ProductService).CheckStock", 57⟩ :: stk) 400
          ("Sản phẩm '" ++ product.Name ++ "' đã hết hàng")).WithData
          [("product_id", .str productID), ("product_name", .str product.Name)]), s1)
    else (none, s1)

/-- `ProductService.ReserveProduct` (product_service.go, lines 67-89). -/
def ReserveProduct (cfg : FilterConfiguration) (stk : List Frame) (s : ProductService)
    (productID : String) (quantity : Int) : Option ErrorRecord × ProductService :=
  match GetProduct cfg (⟨"fiber_log/services", "(*ProductService).ReserveProduct", 68⟩ :: stk) s productID with
  | (.error err, s1) => (some err, s1)
  | (.ok product, s1) =>
    if product.Stock < quantity then
      (some (NewValidationError cfg (⟨"fiber_log/services", "(*ProductService).ReserveProduct", 75⟩ :: stk)
          ("Không đủ hàng: yêu cầu " ++ toString quantity ++ ", còn lại "
            ++ toString product.Stock)
          [("product_id", .str productID), ("product_name", .str product.Name),
           ("requested", .int quantity), ("available_stock", .int product.Stock)]), s1)
    else
      (none, s1.setStock productID (wrapInt (product.Stock - quantity)))

/-- `ProductService.CalculateDiscount` (product_service.go, lines 92-113). -/
def CalculateDiscount (ops : F64Ops) (cfg : FilterConfiguration) (stk : List Frame)
    (s : ProductService) (productID : String) (discountPercent : F64) :
    Except ErrorRecord F64 × ProductService :=
  match GetProduct cfg (⟨"fiber_log/services", "(*ProductService).CalculateDiscount", 93⟩ :: stk) s productID with
  | (.error err, s1) => (.error err, s1)
  | (.ok product, s1) =>
    if F64.lt discountPercent (F64.ofInt 0) || F64.gt discountPercent (F64.ofInt 100) then
      (.error (NewValidationError cfg
          (⟨"fiber_log/services", "(*ProductService).CalculateDiscount", 100⟩ :: stk)
          "Phần trăm giảm giá không hợp lệ"
          [("field", .str "discount_percent"), ("min", .int 0), ("max", .int 100),
           ("received", .float discountPercent)]), s1)
    else
      let finalPrice :=
        ops.mul product.Price (ops.sub (F64.ofInt 1) (ops.div discountPercent (F64.ofInt 100)))
      (.ok finalPrice, s1)

/-! ## services/order_service.go -/

/-- The `Order` struct. -/
structure Order where
  ID : String
  ProductID : String
  Quantity : Int
  UserID : String
  Status : String
  deriving DecidableEq, Repr

/-- `OrderService.CreateOrder` (order_service.go, lines 32-69).  The state is that of
the `ProductService` the order service points to. -/
def CreateOrder (cfg : FilterConfiguration) (stk : List Frame) (s : ProductService)
    (productID userID : String) (quantity : Int) : Except ErrorRecord Order × ProductService :=
  match GetProduct cfg (⟨"fiber_log/services", "(*OrderService).CreateOrder", 34⟩ :: stk) s
      productID with
  | (.error err, s1) => (.error err, s1)
  | (.ok _, s1) =>
    if quantity ≤ 0 then
      (.error ((NewValidationError cfg
          (⟨"fiber_log/services", "(*OrderService).CreateOrder", 43⟩ :: stk)
          "Số lượng phải lớn hơn 0"
          [("field", .str "quantity"), ("min", .int 1), ("received", .int quantity)]).WithCallChain
          cfg), s1)
    else
      match ReserveProduct cfg (⟨"fiber_log/services", "(*OrderService).CreateOrder", 54⟩ :: stk)
          s1 productID quantity with
      | (some err, s2) => (.error err, s2)
      | (none, s2) =>
        (.ok { ID := "ORD-" ++ userID ++ "-" ++ productID, ProductID := productID,
               Quantity := quantity, UserID := userID, Status := "confirmed" }, s2)

/-- `OrderService.CancelOrder` (order_service.go, lines 72-94). -/
def CancelOrder (cfg : FilterConfiguration) (stk : List Frame) (orderID : String) :
    Option ErrorRecord :=
  if orderID = "" then
    some ((NewBusinessError cfg (⟨"fiber_log/services", "(*OrderService).CancelOrder", 76⟩ :: stk)
      400 "Order ID không được để trống").WithData [("field", .str "order_id")])
  else if orderID = "ORD-shipped" then
    some ((NewBusinessError cfg (⟨"fiber_log/services", "(*OrderService).CancelOrder", 84⟩ :: stk)
      400 "Không thể hủy đơn hàng đã được giao cho đơn vị vận chuyển").WithData
      [("order_id", .str orderID), ("status", .str "shipped")])
  else none

/-- `OrderService.callPaymentGateway` (order_service.go, lines 120-148). -/
def callPaymentGateway (cfg : FilterConfiguration) (stk : List Frame) (orderID : String)
    (amount : F64) : Option ErrorRecord :=
  if F64.gt amount (F64.ofInt 10000) then
    some ((NewExternalError cfg
      (⟨"fiber_log/services", "(*OrderService).callPaymentGateway", 124⟩ :: stk) 504
      "Payment gateway timeout: Giao dịch quá lớn cần xác nhận thêm"
      "timeout after 30s waiting for payment confirmation").WithData
      [("order_id", .str orderID), ("amount", .float amount), ("timeout", .str "30s")])
  else if orderID = "ORD-invalid-card" then
    some ((NewExternalError cfg
      (⟨"fiber_log/services", "(*OrderService).callPaymentGateway", 137⟩ :: stk) 502
      "Payment failed: Thẻ thanh toán không hợp lệ"
      "card declined by bank").WithData
      [("order_id", .str orderID), ("service", .str "payment_gateway")])
  else none

/-- `OrderService.ProcessPayment` (order_service.go, lines 97-117); the literal 0.01
is the float64 nearest to it. -/
def ProcessPayment (cfg : FilterConfiguration) (stk : List Frame) (orderID : String)
    (amount : F64) : Option ErrorRecord :=
  if F64.le amount (F64.ofInt 0) then
    some (NewValidationError cfg
      (⟨"fiber_log/services", "(*OrderService).ProcessPayment", 100⟩ :: stk)
      "Số tiền thanh toán phải lớn hơn 0"
      [("field", .str "amount"), ("min", .float (.fin 5764607523034235 (-59))),
       ("received", .float amount)])
  else
    match callPaymentGateway cfg
        (⟨"fiber_log/services", "(*OrderService).ProcessPayment", 111⟩ :: stk) orderID amount with
    | some err => some err
    | none => none

/-! ## main.go: the call-chain demo -/

/-- `validateOrderData` (main.go, lines 574-587): the factory is called on line 581;
`WithCallChain` is applied to the record it returns. -/
def validateOrderData (cfg : FilterConfiguration) (stk : List Frame) : Option ErrorRecord :=
  let isValid := false
  if !isValid then
    some ((NewValidationError cfg (⟨"main", "validateOrderData", 581⟩ :: stk)
      "Dữ liệu đơn hàng không hợp lệ"
      [("reason", .str "invalid_order_data")]).WithCallChain cfg)
  else none

/-- `checkInventoryData` (main.go, lines 589-606). -/
def checkInventoryData (cfg : FilterConfiguration) (stk : List Frame) : Option ErrorRecord :=
  let stockAvailable : Int := 0
  if stockAvailable = 0 then
    some (((NewBusinessError cfg (⟨"main", "checkInventoryData", 595⟩ :: stk) 422
      "Không đủ hàng trong kho").WithData
      [("product_id", .str "PROD-123"), ("requested", .int 10), ("available", .int 0),
       ("warehouse", .str "WH-01")]).WithCallChain cfg)
  else none

/-- `processOrderData` (main.go, lines 560-572). -/
def processOrderData (cfg : FilterConfiguration) (stk : List Frame) : Except ErrorRecord String :=
  match validateOrderData cfg (⟨"main", "processOrderData", 562⟩ :: stk) with
  | some err => .error err
  | none =>
    match checkInventoryData cfg (⟨"main", "processOrderData", 567⟩ :: stk) with
    | some err => .error err
    | none => .ok "success"

/-- `complexErrorWithCallChainHandler` (main.go, lines 547-558): the error handed to
the recovery middleware, or the JSON body of the response. -/
def complexErrorWithCallChainHandler (cfg : FilterConfiguration) (stk : List Frame) :
    Except ErrorRecord Data :=
  match processOrderData cfg (⟨"main", "complexErrorWithCallChainHandler", 549⟩ :: stk) with
  | .error err => .error err
  | .ok result => .ok [("message", .str "Đơn hàng đã được xử lý"), ("result", .str result)]

/-- The error of a `(T, error)` result. -/
def errOf {α : Type} : Except ErrorRecord α → Option ErrorRecord
  | .error e => some e
  | .ok _ => none

/-- The value of a `(T, error)` result. -/
def valOf {α : Type} : Except ErrorRecord α → Option α
  | .error _ => none
  | .ok v => some v

/-- Current stock of a product, if it is in the catalog. -/
def ProductService.stockOf (s : ProductService) (productID : String) : Option Int :=
  (s.products productID).map (fun p => p.Stock)

/-! ## Helper lemmas -/

theorem getProduct_of_missing (cfg : FilterConfiguration) (stk : List Frame) (s : ProductService)
    (productID : String) (h : s.products productID = none) :
    GetProduct cfg stk s productID =
      (.error ((NewBusinessError cfg
        (⟨"fiber_log/services", "(*ProductService).GetProduct", 40⟩ :: stk) 404
        ("Sản phẩm ID=" ++ productID ++ " không tồn tại")).WithData
        [("product_id", .str productID)]), s) := by
  simp [GetProduct, h]

theorem getProduct_of_present (cfg : FilterConfiguration) (stk : List Frame) (s : ProductService)
    (productID : String) (p : Product) (h : s.products productID = some p) :
    GetProduct cfg stk s productID = (.ok p, s) := by
  simp [GetProduct, h]

theorem finLt_zero_of_finLt_pos (c m e : Int) (hc : 0 ≤ c) (h : F64.finLt c 0 m e = true) :
    F64.finLt 0 0 m e = true := by
  simp only [F64.finLt, decide_eq_true_eq] at h ⊢
  have h1 : (0 : Int) < 2 ^ (0 - min 0 e).toNat := by positivity
  have h2 : (0 : Int) < 2 ^ (e - min 0 e).toNat := by positivity
  have h3 : 0 ≤ c * 2 ^ (0 - min 0 e).toNat := mul_nonneg hc h1.le
  simpa using lt_of_le_of_lt h3 h

theorem le_zero_eq_false_of_gt (amount : F64) (c : Int) (hc : 0 ≤ c)
    (h : F64.gt amount (F64.ofInt c) = true) : F64.le amount (F64.ofInt 0) = false := by
  cases amount with
  | nan => simp [F64.le]
  | posInf => simp [F64.le, F64.lt, F64.ofInt]
  | negInf => simp [F64.gt, F64.lt, F64.ofInt] at h
  | negZero =>
    have h0 := finLt_zero_of_finLt_pos c 0 0 hc (by simpa [F64.gt, F64.lt, F64.ofInt] using h)
    simp [F64.finLt] at h0
  | fin m e =>
    have h0 := finLt_zero_of_finLt_pos c m e hc (by simpa [F64.gt, F64.lt, F64.ofInt] using h)
    simp [F64.le, F64.lt, F64.ofInt, h0]

theorem head?_filter_eq_find? {α : Type} (q : α → Bool) (l : List α) :
    (l.filter q).head? = l.find? q := by
  induction l with
  | nil => rfl
  | cons a t ih =>
    by_cases h : q a = true
    · simp [List.filter_cons, List.find?_cons, h]
    · simp [List.filter_cons, List.find?_cons, h, ih]

theorem resolveCallChain_eq (cfg : FilterConfiguration) (stk : List Frame) :
    resolveCallChain cfg stk =
      if stk.filter (fun f => !isNoise cfg f) = [] then [stk.headD unknownFrame]
      else (stk.filter (fun f => !isNoise cfg f)).take maxCallChainDepth := by
  unfold resolveCallChain
  cases h : stk.filter (fun f => !isNoise cfg f) with
  | nil => simp
  | cons f fs => simp

theorem resolveCallChain_head? (cfg : FilterConfiguration) (stk : List Frame) :
    (resolveCallChain cfg stk).head? = some (resolveLocation cfg stk) := by
  rw [resolveCallChain_eq]
  unfold resolveLocation
  rw [← head?_filter_eq_find?]
  cases h : stk.filter (fun f => !isNoise cfg f) with
  | nil => simp
  | cons f fs => simp [maxCallChainDepth]

theorem resolveCallChain_sublist (cfg : FilterConfiguration) (stk : List Frame)
    (hne : stk ≠ []) : (resolveCallChain cfg stk).Sublist stk := by
  rw [resolveCallChain_eq]
  split
  · cases stk with
    | nil => exact absurd rfl hne
    | cons a t => simp
  · exact (List.take_sublist _ _).trans (List.filter_sublist _)

theorem resolveCallChain_length_le (cfg : FilterConfiguration) (stk : List Frame) :
    (resolveCallChain cfg stk).length ≤ 50 := by
  rw [resolveCallChain_eq]
  split
  · simp
  · exact List.length_take_le _ _

theorem resolveCallChain_of_exists (cfg : FilterConfiguration) (stk : List Frame)
    (h : ∃ f ∈ stk, isNoise cfg f = false) :
    resolveCallChain cfg stk = (stk.filter (fun f => !isNoise cfg f)).take 50 := by
  rw [resolveCallChain_eq, if_neg, maxCallChainDepth]
  obtain ⟨f, hmem, hn⟩ := h
  intro hnil
  have hf : f ∈ stk.filter (fun f => !isNoise cfg f) := List.mem_filter.mpr ⟨hmem, by simp [hn]⟩
  rw [hnil] at hf
  exact absurd hf (List.not_mem_nil f)

theorem constructed_walk (cfg : FilterConfiguration) (e : ErrorRecord)
    (he : Constructed cfg e) : e.walk ≠ [] ∧ e.location = resolveLocation cfg e.walk := by
  induction he with
  | business site stk status message => exact ⟨List.cons_ne_nil _ _, rfl⟩
  | system site stk cause => exact ⟨List.cons_ne_nil _ _, rfl⟩
  | validation site stk message data => exact ⟨List.cons_ne_nil _ _, rfl⟩
  | auth site stk status message => exact ⟨List.cons_ne_nil _ _, rfl⟩
  | external site stk status message cause => exact ⟨List.cons_ne_nil _ _, rfl⟩
  | withData e m _ ih => exact ih
  | withCallChain e _ ih => exact ih

/-! ## Claims -/

/-- C1: for a product in the catalog with stock `s` and a quantity `q > s`,
`ReserveProduct` returns a Validation error with status 400 whose data holds
`requested = q` and `available_stock = s`. -/
theorem reserveProduct_insufficient_stock (cfg : FilterConfiguration) (stk : List Frame)
    (s : ProductService) (productID : String) (p : Product) (q : Int)
    (hp : s.products productID = some p) (hq : p.Stock < q) :
    ∃ e, (ReserveProduct cfg stk s productID q).1 = some e ∧ e.kind = .Validation ∧
      e.httpStatus = 400 ∧ e.data.lookup "requested" = some (.int q) ∧
      e.data.lookup "available_stock" = some (.int p.Stock) := by
  simp only [ReserveProduct, getProduct_of_present cfg _ s productID p hp, if_pos hq]
  exact ⟨_, rfl, by simp [NewValidationError, List.lookup]⟩

/-- C1 at product "456" (stock 5) and quantity 10. -/
theorem reserveProduct_insufficient_stock_witness :
    ∃ e, (ReserveProduct .empty [] NewProductService "456" 10).1 = some e ∧
      e.kind = .Validation ∧ e.httpStatus = 400 ∧
      e.data.lookup "requested" = some (.int 10) ∧
      e.data.lookup "available_stock" = some (.int 5) :=
  reserveProduct_insufficient_stock .empty [] NewProductService "456"
    { ID := "456", Name := "MacBook Pro", Stock := 5, Price := .fin 1374384037161861 (-39) } 10
    (by decide) (by decide)

/-- C2: `CancelOrder` returns an error exactly when the order id is "" or
"ORD-shipped"; for "ORD-shipped" it is a Business error with status 400 whose data
holds `status = "shipped"` and `order_id = "ORD-shipped"`. -/
theorem cancelOrder_error_iff (cfg : FilterConfiguration) (stk : List Frame) (orderID : String) :
    (CancelOrder cfg stk orderID ≠ none ↔ (orderID = "" ∨ orderID = "ORD-shipped")) ∧
    (CancelOrder cfg stk orderID = none ↔ ¬ (orderID = "" ∨ orderID = "ORD-shipped")) ∧
    ∃ e, CancelOrder cfg stk "ORD-shipped" = some e ∧ e.kind = .Business ∧
      e.httpStatus = 400 ∧ e.data.lookup "status" = some (.str "shipped") ∧
      e.data.lookup "order_id" = some (.str "ORD-shipped") := by
  refine ⟨?_, ?_, ?_⟩
  · unfold CancelOrder
    by_cases h1 : orderID = ""
    · simp [h1]
    · by_cases h2 : orderID = "ORD-shipped"
      · simp [h2]
      · simp [h1, h2]
  · unfold CancelOrder
    by_cases h1 : orderID = ""
    · simp [h1]
    · by_cases h2 : orderID = "ORD-shipped"
      · simp [h2]
      · simp [h1, h2]
  · simp only [CancelOrder]
    rw [if_neg (by decide), if_pos trivial]
    exact ⟨_, rfl, by simp [NewBusinessError, ErrorRecord.WithData, mergeData, List.lookup]⟩

/-- C3: for every order id and every amount above 10000, `ProcessPayment` returns an
External error with status 504 whose data holds the amount and the order id. -/
theorem processPayment_timeout (cfg : FilterConfiguration) (stk : List Frame) (orderID : String)
    (amount : F64) (h : F64.gt amount (F64.ofInt 10000) = true) :
    ∃ e, ProcessPayment cfg stk orderID amount = some e ∧ e.kind = .External ∧
      e.httpStatus = 504 ∧ e.data.lookup "amount" = some (.float amount) ∧
      e.data.lookup "order_id" = some (.str orderID) := by
  simp only [ProcessPayment, le_zero_eq_false_of_gt amount 10000 (by decide) h,
    callPaymentGateway, h, if_true, Bool.false_eq_true, if_false]
  exact ⟨_, rfl, by simp [NewExternalError, ErrorRecord.WithData, mergeData, List.lookup]⟩

/-- C3 at order "ORD-123" and amount 20000, and at order "ORD-invalid-card". -/
theorem processPayment_timeout_witness :
    (∃ e, ProcessPayment .empty [] "ORD-123" (F64.ofInt 20000) = some e ∧ e.kind = .External ∧
      e.httpStatus = 504 ∧ e.data.lookup "amount" = some (.float (F64.ofInt 20000)) ∧
      e.data.lookup "order_id" = some (.str "ORD-123")) ∧
    (∃ e, ProcessPayment .empty [] "ORD-invalid-card" (F64.ofInt 20000) = some e ∧
      e.kind = .External ∧
      e.httpStatus = 504 ∧ e.data.lookup "amount" = some (.float (F64.ofInt 20000)) ∧
      e.data.lookup "order_id" = some (.str "ORD-invalid-card")) :=
  ⟨processPayment_timeout .empty [] "ORD-123" (F64.ofInt 20000) (by decide),
   processPayment_timeout .empty [] "ORD-invalid-card" (F64.ofInt 20000) (by decide)⟩

/-- C4: for a product id that is not in the catalog, `CheckStock`, `ReserveProduct`,
`CalculateDiscount` and `CreateOrder` each return exactly the error returned by their
call of `GetProduct`: a Business error, status 404, with the message and data built
by `GetProduct`, and no call chain. -/
theorem missing_product_error_propagates (ops : F64Ops) (cfg : FilterConfiguration)
    (stk : List Frame) (s : ProductService) (productID userID : String) (q : Int) (p : F64)
    (h : s.products productID = none) :
    (CheckStock cfg stk s productID).1 =
      errOf (GetProduct cfg (⟨"fiber_log/services", "(*ProductService).CheckStock", 50⟩ :: stk)
        s productID).1 ∧
    (ReserveProduct cfg stk s productID q).1 =
      errOf (GetProduct cfg (⟨"fiber_log/services", "(*ProductService).ReserveProduct", 68⟩ :: stk)
        s productID).1 ∧
    errOf (CalculateDiscount ops cfg stk s productID p).1 =
      errOf (GetProduct cfg
        (⟨"fiber_log/services", "(*ProductService).CalculateDiscount", 93⟩ :: stk) s productID).1 ∧
    errOf (CreateOrder cfg stk s productID userID q).1 =
      errOf (GetProduct cfg (⟨"fiber_log/services", "(*OrderService).CreateOrder", 34⟩ :: stk)
        s productID).1 ∧
    valOf (CalculateDiscount ops cfg stk s productID p).1 = none ∧
    valOf (CreateOrder cfg stk s productID userID q).1 = none ∧
    ∀ stk2 : List Frame, ∃ e, errOf (GetProduct cfg stk2 s productID).1 = some e ∧
      e.kind = .Business ∧ e.httpStatus = 404 ∧
      e.message = "Sản phẩm ID=" ++ productID ++ " không tồn tại" ∧
      e.data = [("product_id", .str productID)] ∧ e.cause = none ∧ e.callChain = none ∧
      e.location =
        resolveLocation cfg (⟨"fiber_log/services", "(*ProductService).GetProduct", 40⟩ :: stk2) := by
  refine ⟨?_, ?_, ?_, ?_, ?_, ?_, ?_⟩
  · simp only [CheckStock, getProduct_of_missing cfg _ s productID h, errOf]
  · simp only [ReserveProduct, getProduct_of_missing cfg _ s productID h, errOf]
  · simp only [CalculateDiscount, getProduct_of_missing cfg _ s productID h, errOf]
  · simp only [CreateOrder, getProduct_of_missing cfg _ s productID h, errOf]
  · simp only [CalculateDiscount, getProduct_of_missing cfg _ s productID h, valOf]
  · simp only [CreateOrder, getProduct_of_missing cfg _ s productID h, valOf]
  · intro stk2
    simp only [getProduct_of_missing cfg _ s productID h, errOf]
    exact ⟨_, rfl, by simp [NewBusinessError, ErrorRecord.WithData, mergeData]⟩

/-- C4 at the absent product id "999". -/
theorem missing_product_error_propagates_witness :
    (CheckStock .empty [] NewProductService "999").1 =
      errOf (GetProduct .empty [⟨"fiber_log/services", "(*ProductService).CheckStock", 50⟩]
        NewProductService "999").1 ∧
    (CheckStock .empty [] NewProductService "999").1.map (fun e => (e.kind, e.httpStatus)) =
      some (.Business, 404) :=
  ⟨(missing_product_error_propagates ⟨fun a _ => a, fun a _ => a, fun a _ => a⟩ .empty []
      NewProductService "999" "USER001" 1 (F64.ofInt 10) (by decide)).1, by decide⟩

/-- C5: `GetProduct` returns an error if and only if the product id is not a key of
the catalog; the error is then a Business error with status 404 whose data holds
`product_id`, and no product is returned; otherwise the stored product is returned
with a nil error. -/
theorem getProduct_spec (cfg : FilterConfiguration) (stk : List Frame) (s : ProductService)
    (productID : String) :
    (errOf (GetProduct cfg stk s productID).1 ≠ none ↔ s.products productID = none) ∧
    (s.products productID = none →
      valOf (GetProduct cfg stk s productID).1 = none ∧
      ∃ e, (GetProduct cfg stk s productID).1 = .error e ∧ e.kind = .Business ∧
        e.httpStatus = 404 ∧ e.data.lookup "product_id" = some (.str productID)) ∧
    (∀ p, s.products productID = some p → (GetProduct cfg stk s productID).1 = .ok p) := by
  refine ⟨?_, ?_, ?_⟩
  · cases h : s.products productID with
    | none => simp [getProduct_of_missing cfg stk s productID h, errOf]
    | some p => simp [getProduct_of_present cfg stk s productID p h, errOf]
  · intro h
    simp only [getProduct_of_missing cfg stk s productID h, valOf]
    exact ⟨trivial, _, rfl,
      by simp [NewBusinessError, ErrorRecord.WithData, mergeData, List.lookup]⟩
  · intro p h
    simp only [getProduct_of_present cfg stk s productID p h]

/-- C5 at the absent id "999" and the present id "456". -/
theorem getProduct_spec_witness :
    (valOf (GetProduct .empty [] NewProductService "999").1 = none ∧
      ∃ e, (GetProduct .empty [] NewProductService "999").1 = .error e ∧ e.kind = .Business ∧
        e.httpStatus = 404 ∧ e.data.lookup "product_id" = some (.str "999")) ∧
    (GetProduct .empty [] NewProductService "456").1 =
      .ok { ID := "456", Name := "MacBook Pro", Stock := 5,
            Price := .fin 1374384037161861 (-39) } :=
  ⟨(getProduct_spec .empty [] NewProductService "999").2.1 (by decide),
   (getProduct_spec .empty [] NewProductService "456").2.2 _ (by decide)⟩

/-- C6: for a product id in the catalog, `CheckStock` returns an error if and only if
the product's stock is 0; the error is then a Business error with status 400 whose
data holds `product_id` and `product_name`; `CheckStock` leaves the catalog, and so
every stock, unchanged for every product id. -/
theorem checkStock_spec (cfg : FilterConfiguration) (stk : List Frame) (s : ProductService)
    (productID : String) (p : Product) (hp : s.products productID = some p) :
    ((CheckStock cfg stk s productID).1 ≠ none ↔ p.Stock = 0) ∧
    (p.Stock = 0 →
      ∃ e, (CheckStock cfg stk s productID).1 = some e ∧ e.kind = .Business ∧
        e.httpStatus = 400 ∧ e.data.lookup "product_id" = some (.str productID) ∧
        e.data.lookup "product_name" = some (.str p.Name)) ∧
    (∀ anyID : String, (CheckStock cfg stk s anyID).2 = s) := by
  refine ⟨?_, ?_, ?_⟩
  · simp only [CheckStock, getProduct_of_present cfg _ s productID p hp]
    by_cases h0 : p.Stock = 0 <;> simp [h0]
  · intro h0
    simp only [CheckStock, getProduct_of_present cfg _ s productID p hp, if_pos h0]
    exact ⟨_, rfl, by simp [NewBusinessError, ErrorRecord.WithData, mergeData, List.lookup]⟩
  · intro anyID
    cases h : s.products anyID with
    | none => simp only [CheckStock, getProduct_of_missing cfg _ s anyID h]
    | some p2 =>
      simp only [CheckStock, getProduct_of_present cfg _ s anyID p2 h]
      split <;> rfl

/-- C6 at product "123", whose stock is 0. -/
theorem checkStock_spec_witness :
    ∃ e, (CheckStock .empty [] NewProductService "123").1 = some e ∧ e.kind = .Business ∧
      e.httpStatus = 400 ∧ e.data.lookup "product_id" = some (.str "123") ∧
      e.data.lookup "product_name" = some (.str "iPhone 15") :=
  (checkStock_spec .empty [] NewProductService "123"
    { ID := "123", Name := "iPhone 15", Stock := 0, Price := .fin 4398002530638889 (-42) }
    (by decide)).2.1 (by decide)

/-- C7 (the code at product "123", quantity 1): `CreateOrder` for the out-of-stock
product returns the Validation error of `ReserveProduct` ("Không đủ hàng"), not a
Business error, while `CheckStock` on the same product returns the Business error
"hết hàng". -/
theorem createOrder_out_of_stock_is_validation :
    (errOf (CreateOrder .empty [] NewProductService "123" "USER001" 1).1).map
        (fun e => (e.kind, e.httpStatus, e.message)) =
      some (.Validation, 400, "Không đủ hàng: yêu cầu 1, còn lại 0") ∧
    (CheckStock .empty [] NewProductService "123").1.map
        (fun e => (e.kind, e.httpStatus, e.message)) =
      some (.Business, 400, "Sản phẩm 'iPhone 15' đã hết hàng") := by
  constructor <;> decide

/-- C8: for a product id in the catalog, every user id and every quantity `q ≤ 0`,
`CreateOrder` returns no order and a Validation error with status 400 whose data
holds `field = "quantity"`, `min = 1` and `received = q`, whatever the stock, and
leaves the catalog unchanged. -/
theorem createOrder_nonpositive_quantity (cfg : FilterConfiguration) (stk : List Frame)
    (s : ProductService) (productID userID : String) (p : Product) (q : Int)
    (hp : s.products productID = some p) (hq : q ≤ 0) :
    valOf (CreateOrder cfg stk s productID userID q).1 = none ∧
    (CreateOrder cfg stk s productID userID q).2 = s ∧
    ∃ e, (CreateOrder cfg stk s productID userID q).1 = .error e ∧ e.kind = .Validation ∧
      e.httpStatus = 400 ∧ e.data.lookup "field" = some (.str "quantity") ∧
      e.data.lookup "min" = some (.int 1) ∧ e.data.lookup "received" = some (.int q) := by
  simp only [CreateOrder, getProduct_of_present cfg _ s productID p hp, if_pos hq, valOf]
  exact ⟨trivial, trivial, _, rfl,
    by simp [NewValidationError, ErrorRecord.WithCallChain, List.lookup]⟩

/-- C8 at product "456" and quantity 0. -/
theorem createOrder_nonpositive_quantity_witness :
    valOf (CreateOrder .empty [] NewProductService "456" "USER001" 0).1 = none ∧
    (CreateOrder .empty [] NewProductService "456" "USER001" 0).2 = NewProductService ∧
    ∃ e, (CreateOrder .empty [] NewProductService "456" "USER001" 0).1 = .error e ∧
      e.kind = .Validation ∧ e.httpStatus = 400 ∧
      e.data.lookup "field" = some (.str "quantity") ∧
      e.data.lookup "min" = some (.int 1) ∧ e.data.lookup "received" = some (.int 0) :=
  createOrder_nonpositive_quantity .empty [] NewProductService "456" "USER001"
    { ID := "456", Name := "MacBook Pro", Stock := 5, Price := .fin 1374384037161861 (-39) } 0
    (by decide) (by decide)

/-- C9 (the code at product "456", quantity -3): `ReserveProduct` returns nil and the
stock rises from 5 to 8. -/
theorem reserveProduct_negative_quantity_raises_stock :
    NewProductService.stockOf "456" = some 5 ∧
    (ReserveProduct .empty [] NewProductService "456" (-3)).1 = none ∧
    (ReserveProduct .empty [] NewProductService "456" (-3)).2.stockOf "456" = some 8 := by
  refine ⟨?_, ?_, ?_⟩ <;> decide

/-- C10: for every error record `e` obtained from the factories and the augmenting
operations, `e.WithCallChain()` keeps the location of `e` and yields a call chain
that is a subsequence of the captured walk, hence ordered innermost-first, of at most
50 frames, whose first entry equals the creation location of `e`; when the walk has a
non-noise frame the chain is its non-noise frames.  In particular the error returned
by `complexErrorWithCallChainHandler` is the one built in `validateOrderData`, on the
walk validateOrderData, processOrderData, complexErrorWithCallChainHandler, and the
first entry of its call chain is its location; when the `validateOrderData` frame is
not filtered out, that location and first entry are the `validateOrderData` frame. -/
theorem withCallChain_head_eq_location (cfg : FilterConfiguration) (e : ErrorRecord)
    (stk : List Frame) (he : Constructed cfg e) :
    ((e.WithCallChain cfg).location = e.location ∧
      ∃ chain, (e.WithCallChain cfg).callChain = some chain ∧
        chain.head? = some e.location ∧ chain.Sublist e.walk ∧ chain.length ≤ 50 ∧
        ((∃ f ∈ e.walk, isNoise cfg f = false) →
          chain = (e.walk.filter (fun f => !isNoise cfg f)).take 50)) ∧
    (∃ v, complexErrorWithCallChainHandler cfg stk = .error v ∧
      validateOrderData cfg (⟨"main", "processOrderData", 562⟩ ::
        ⟨"main", "complexErrorWithCallChainHandler", 549⟩ :: stk) = some v ∧
      Constructed cfg v ∧
      v.walk = ⟨"main", "validateOrderData", 581⟩ :: ⟨"main", "processOrderData", 562⟩ ::
        ⟨"main", "complexErrorWithCallChainHandler", 549⟩ :: stk ∧
      v.callChain.bind List.head? = some v.location) ∧
    (isNoise cfg ⟨"main", "validateOrderData", 581⟩ = false →
      ∃ v, complexErrorWithCallChainHandler cfg stk = .error v ∧
        v.location = ⟨"main", "validateOrderData", 581⟩ ∧
        v.callChain.bind List.head? = some ⟨"main", "validateOrderData", 581⟩ ∧
        v.callChain = some (⟨"main", "validateOrderData", 581⟩ ::
          ((⟨"main", "processOrderData", 562⟩ ::
            ⟨"main", "complexErrorWithCallChainHandler", 549⟩ :: stk).filter
              (fun f => !isNoise cfg f)).take 49)) := by
  obtain ⟨hne, hloc⟩ := constructed_walk cfg e he
  refine ⟨⟨rfl, _, rfl, ?_, resolveCallChain_sublist cfg e.walk hne,
    resolveCallChain_length_le cfg e.walk, resolveCallChain_of_exists cfg e.walk⟩, ?_, ?_⟩
  · rw [resolveCallChain_head?, hloc]
  · refine ⟨_, rfl, rfl, Constructed.withCallChain _ (Constructed.validation _ _ _ _), rfl, ?_⟩
    simp only [ErrorRecord.WithCallChain, NewValidationError, Option.some_bind,
      resolveCallChain_head?]
  · intro h1
    refine ⟨_, rfl, ?_, ?_, ?_⟩
    · simp [NewValidationError, ErrorRecord.WithCallChain, resolveLocation, List.find?_cons, h1]
    · simp only [ErrorRecord.WithCallChain, NewValidationError, Option.some_bind,
        resolveCallChain_head?]
      simp [resolveLocation, List.find?_cons, h1]
    · simp only [ErrorRecord.WithCallChain, NewValidationError]
      rw [resolveCallChain_of_exists cfg _ ⟨_, List.mem_cons_self _ _, h1⟩]
      simp [List.filter_cons, h1]

/-- C10 at the empty configuration: the record built by the factory in
`validateOrderData`, and the error returned by `complexErrorWithCallChainHandler`. -/
theorem withCallChain_head_eq_location_witness :
    (((NewValidationError .empty [⟨"main", "validateOrderData", 581⟩,
        ⟨"main", "processOrderData", 562⟩, ⟨"main", "complexErrorWithCallChainHandler", 549⟩]
        "Dữ liệu đơn hàng không hợp lệ" [("reason", .str "invalid_order_data")]).WithCallChain
        .empty).callChain.bind List.head? = some ⟨"main", "validateOrderData", 581⟩) ∧
    ∃ v, complexErrorWithCallChainHandler .empty [] = .error v ∧
      v.location = ⟨"main", "validateOrderData", 581⟩ ∧
      v.callChain.bind List.head? = some ⟨"main", "validateOrderData", 581⟩ ∧
      v.callChain = some [⟨"main", "validateOrderData", 581⟩,
        ⟨"main", "processOrderData", 562⟩,
        ⟨"main", "complexErrorWithCallChainHandler", 549⟩] :=
  ⟨by decide,
   (withCallChain_head_eq_location .empty
      (NewValidationError .empty [⟨"main", "validateOrderData", 581⟩,
        ⟨"main", "processOrderData", 562⟩, ⟨"main", "complexErrorWithCallChainHandler", 549⟩]
        "Dữ liệu đơn hàng không hợp lệ" [("reason", .str "invalid_order_data")])
      [] (Constructed.validation _ _ _ _)).2.2 (by decide)⟩

end FiberLog
